import Mathlib

/-!
# Verification of the PQC-VPN cryptographic core

A shallow embedding of the key-exchange subsystem of the PQC-VPN
repository (`src/rust vpn/src/crypto/`): the handshake message codec,
the initiator/responder handshake state machine, and the three-mode
key-exchange facade.  Byte strings are modelled as `List Nat` (each
element a byte value), Rust `Result` as `Except`, and the reachable
panics of the source (`Option::unwrap` on `None`, `usize` subtraction
underflow followed by `split_at`) as an explicit `panic` outcome.

The external primitives (the liboqs KEMs behind the `CryptoProvider`
trait, and the x25519-dalek Diffie-Hellman functions) are modelled as
record parameters; randomness consumed by those primitives is made
explicit as a `Nat` seed argument.  Concrete "toy" instances of those
records are supplied so that every run of the embedded code can be
evaluated on concrete inputs.
-/

deriving instance DecidableEq for Except

namespace PQCVPN

/-- Byte strings of the Rust source (`Vec<u8>`, `Bytes`). -/
abbrev Bytes := List Nat

/-! ## Errors (`provider.rs`, `handshake.rs`, `kex.rs`) -/

/-- `CryptoError` from `provider.rs`: `KemError(String)`,
`SignatureError(String)`, `AeadError(String)`, `InvalidKeySize`.
The `String` payloads are irrelevant to the claims and dropped. -/
inductive CryptoError where
  | kemError
  | signatureError
  | aeadError
  | invalidKeySize
deriving DecidableEq, Repr

/-- `HandshakeError` from `handshake.rs`.  Note: the enum has no
state-mismatch variant; the source returns `InvalidMessageSize` from
every state guard. -/
inductive HandshakeError where
  | cryptoError (e : CryptoError)
  | invalidMessageSize
  | invalidMac
  | invalidTimestamp
deriving DecidableEq, Repr

/-- `KexError` from `kex.rs`. -/
inductive KexError where
  | cryptoError (e : CryptoError)
  | invalidMode
deriving DecidableEq, Repr

/-- Outcome of a Rust call that can return `Ok`, return `Err`, or
panic (unwrap on `None`, integer-overflow / `split_at` out of range). -/
inductive Outcome (ε : Type) (α : Type) where
  | ok (a : α)
  | err (e : ε)
  | panic
deriving DecidableEq, Repr

/-! ## Wire-format constants (`handshake.rs` top of file) -/

def HANDSHAKE_MESSAGE_SIZE : Nat := 1232
def MAC_SIZE : Nat := 32
def TIMESTAMP_SIZE : Nat := 12
def RESERVED_SIZE : Nat := 3
def INDEX_SIZE : Nat := 4

/-! ## `HandshakeMessage` and its codec -/

/-- `HandshakeMessage` struct: `message_type : u8`,
`sender_index : u32`, the five byte-vector fields. -/
structure HandshakeMessage where
  message_type : Nat
  sender_index : Nat
  ephemeral_public : Bytes
  static_ciphertext : Bytes
  timestamp : Bytes
  mac1 : Bytes
  mac2 : Bytes
deriving DecidableEq, Repr

/-- `HandshakeMessage::new`: zero MACs of `MAC_SIZE` bytes. -/
def HandshakeMessage.new (message_type sender_index : Nat)
    (ephemeral_public static_ciphertext timestamp : Bytes) : HandshakeMessage :=
  { message_type := message_type
    sender_index := sender_index
    ephemeral_public := ephemeral_public
    static_ciphertext := static_ciphertext
    timestamp := timestamp
    mac1 := List.replicate MAC_SIZE 0
    mac2 := List.replicate MAC_SIZE 0 }

/-- `BufMut::put_u32_le`: four bytes, little endian. -/
def putU32le (n : Nat) : Bytes :=
  [n % 256, n / 256 % 256, n / 256 ^ 2 % 256, n / 256 ^ 3 % 256]

/-- `Buf::get_u32_le` on the first four bytes of a buffer. -/
def getU32le (l : Bytes) : Nat :=
  l.headD 0 + 256 * (l.tail.headD 0 + 256 * (l.tail.tail.headD 0 + 256 * l.tail.tail.tail.headD 0))

/-- The buffer assembled by `HandshakeMessage::serialize`:
`message_type ∥ 3 reserved zero bytes ∥ sender_index LE ∥
ephemeral_public ∥ static_ciphertext ∥ timestamp ∥ mac1 ∥ mac2`
(the local `buf` of the source, lifted to a definition). -/
def HandshakeMessage.serializedBuf (m : HandshakeMessage) : Bytes :=
  [m.message_type % 256] ++ List.replicate RESERVED_SIZE 0 ++ putU32le m.sender_index
    ++ m.ephemeral_public ++ m.static_ciphertext ++ m.timestamp ++ m.mac1 ++ m.mac2

/-- `HandshakeMessage::serialize`: fails with `InvalidMessageSize` only
when the buffer is LONGER than `HANDSHAKE_MESSAGE_SIZE`; the buffer is
returned as-is, never padded. -/
def HandshakeMessage.serialize (m : HandshakeMessage) : Except HandshakeError Bytes :=
  if m.serializedBuf.length > HANDSHAKE_MESSAGE_SIZE then
    .error .invalidMessageSize
  else
    .ok m.serializedBuf

/-- Field sizes hard-coded in `HandshakeMessage::deserialize`. -/
def ephemeral_size : Nat := 896
def static_size : Nat := 188

/-- `HandshakeMessage::deserialize`: requires exactly
`HANDSHAKE_MESSAGE_SIZE` input bytes, then reads the fields in wire
order with the hard-coded sizes `ephemeral_size = 896` and
`static_size = 188`. -/
def HandshakeMessage.deserialize (bytes : Bytes) : Except HandshakeError HandshakeMessage :=
  if bytes.length ≠ HANDSHAKE_MESSAGE_SIZE then
    .error .invalidMessageSize
  else
    let message_type := bytes.headD 0
    let buf := (bytes.drop 1).drop RESERVED_SIZE
    let sender_index := getU32le (buf.take 4)
    let buf := buf.drop 4
    let ephemeral_public := buf.take ephemeral_size
    let buf := buf.drop ephemeral_size
    let static_ciphertext := buf.take static_size
    let buf := buf.drop static_size
    let timestamp := buf.take TIMESTAMP_SIZE
    let buf := buf.drop TIMESTAMP_SIZE
    let mac1 := buf.take MAC_SIZE
    let buf := buf.drop MAC_SIZE
    let mac2 := buf.take MAC_SIZE
    .ok { message_type := message_type
          sender_index := sender_index
          ephemeral_public := ephemeral_public
          static_ciphertext := static_ciphertext
          timestamp := timestamp
          mac1 := mac1
          mac2 := mac2 }

/-- Validity of a message under the reference binding: byte-valued
fields and the reference field sizes (`P = 896`, `C = 188`,
12-byte timestamp, 32-byte MACs). -/
def HandshakeMessage.ValidRef (m : HandshakeMessage) : Prop :=
  m.message_type < 256 ∧ m.sender_index < 2 ^ 32 ∧
  m.ephemeral_public.length = 896 ∧ m.static_ciphertext.length = 188 ∧
  m.timestamp.length = TIMESTAMP_SIZE ∧
  m.mac1.length = MAC_SIZE ∧ m.mac2.length = MAC_SIZE

/-- An all-zero reference-sized message, used as concrete input. -/
def msgRef : HandshakeMessage :=
  HandshakeMessage.new 1 0 (List.replicate 896 0) (List.replicate 188 0)
    (List.replicate TIMESTAMP_SIZE 0)

/-! ## The `CryptoProvider` trait (`provider.rs`)

The concrete provider wraps liboqs KEMs, which are external to the
repository; the trait is therefore modelled as a record of functions.
Randomized operations (`keypair`, `encapsulate`) take an explicit
`Nat` seed.  Tuple orders follow the repository's own usage:
keypairs are destructured `(public, private)` in `Handshake::new`,
`Handshake::create_initiation` and the Hybrid arm of
`KeyExchange::generate_keypair`; encapsulation results are
destructured `(shared_secret, ciphertext)` everywhere. -/

structure CryptoProvider where
  generate_static_keypair : Nat → Except CryptoError (Bytes × Bytes)
  generate_ephemeral_keypair : Nat → Except CryptoError (Bytes × Bytes)
  encapsulate_static : Bytes → Nat → Except CryptoError (Bytes × Bytes)
  decapsulate_static : Bytes → Bytes → Except CryptoError Bytes
  encapsulate_ephemeral : Bytes → Nat → Except CryptoError (Bytes × Bytes)
  decapsulate_ephemeral : Bytes → Bytes → Except CryptoError Bytes

/-! ## Handshake state machine (`handshake.rs`) -/

/-- `HandshakeState` enum. -/
inductive HandshakeState where
  | InitiatorStart
  | InitiatorFinished
  | ResponderStart
  | ResponderFinished
deriving DecidableEq, Repr

/-- The `Handshake` struct (minus the provider handle, which is
passed to each operation explicitly). -/
structure Handshake where
  state : HandshakeState
  static_private : Bytes
  static_public : Bytes
  ephemeral_private : Option Bytes
  shared_secret : Option Bytes
deriving DecidableEq, Repr

/-- `Handshake::new`: generates a static keypair from the provider and
starts in `InitiatorStart` or `ResponderStart` according to the role. -/
def Handshake.new (P : CryptoProvider) (rng : Nat) (is_initiator : Bool) :
    Except HandshakeError Handshake :=
  match P.generate_static_keypair rng with
  | .error e => .error (.cryptoError e)
  | .ok (static_public, static_private) =>
      .ok { state := if is_initiator then .InitiatorStart else .ResponderStart
            static_private := static_private
            static_public := static_public
            ephemeral_private := none
            shared_secret := none }

/-- `Handshake::create_initiation`.  The state guard returns
`InvalidMessageSize` on mismatch.  Mutations of `&mut self` before a
`?`-return persist, so the operation returns the (possibly partially
updated) session alongside the result.  Note two facts taken verbatim
from the source: the encapsulation target is `self.static_public`
(the session's OWN static public key), and the state field is never
changed. -/
def Handshake.create_initiation (P : CryptoProvider) (rng : Nat) (h : Handshake) :
    Except HandshakeError HandshakeMessage × Handshake :=
  match h.state with
  | .InitiatorStart =>
      match P.generate_ephemeral_keypair rng with
      | .error e => (.error (.cryptoError e), h)
      | .ok (ephemeral_public, ephemeral_private) =>
          let h := { h with ephemeral_private := some ephemeral_private }
          match P.encapsulate_static h.static_public (rng + 1) with
          | .error e => (.error (.cryptoError e), h)
          | .ok (shared_secret, static_ciphertext) =>
              let h := { h with shared_secret := some shared_secret }
              let timestamp : Bytes := List.replicate TIMESTAMP_SIZE 0
              (.ok (HandshakeMessage.new 1 0 ephemeral_public static_ciphertext timestamp), h)
  | _ => (.error .invalidMessageSize, h)

/-- `Handshake::process_initiation`: responder-side processing of
message 1, emitting message 2 and moving to `ResponderFinished`.
The running secret is `shared_secret ∥ ephemeral_ss`. -/
def Handshake.process_initiation (P : CryptoProvider) (rng : Nat) (h : Handshake)
    (msg : HandshakeMessage) : Except HandshakeError HandshakeMessage × Handshake :=
  match h.state with
  | .ResponderStart =>
      match P.decapsulate_static msg.static_ciphertext h.static_private with
      | .error e => (.error (.cryptoError e), h)
      | .ok shared_secret =>
          match P.generate_ephemeral_keypair rng with
          | .error e => (.error (.cryptoError e), h)
          | .ok (ephemeral_public, ephemeral_private) =>
              let h := { h with ephemeral_private := some ephemeral_private }
              match P.encapsulate_ephemeral msg.ephemeral_public (rng + 1) with
              | .error e => (.error (.cryptoError e), h)
              | .ok (ephemeral_ss, static_ciphertext) =>
                  let combined_secret := shared_secret ++ ephemeral_ss
                  let h := { h with shared_secret := some combined_secret
                                    state := .ResponderFinished }
                  let timestamp : Bytes := List.replicate TIMESTAMP_SIZE 0
                  (.ok (HandshakeMessage.new 2 1 ephemeral_public static_ciphertext timestamp), h)
  | _ => (.error .invalidMessageSize, h)

/-- `Handshake::process_response`: initiator-side processing of
message 2.  The source calls `.unwrap()` on `self.ephemeral_private`
and on `self.shared_secret`; on `None` these panic, modelled by the
`panic` outcome. -/
def Handshake.process_response (P : CryptoProvider) (h : Handshake)
    (msg : HandshakeMessage) : Outcome HandshakeError Unit × Handshake :=
  match h.state with
  | .InitiatorStart =>
      match h.ephemeral_private with
      | none => (.panic, h)
      | some ephemeral_private =>
          match P.decapsulate_ephemeral msg.static_ciphertext ephemeral_private with
          | .error e => (.err (.cryptoError e), h)
          | .ok ephemeral_ss =>
              match h.shared_secret with
              | none => (.panic, h)
              | some previous =>
                  let combined_secret := previous ++ ephemeral_ss
                  (.ok (), { h with shared_secret := some combined_secret
                                    state := .InitiatorFinished })
  | _ => (.err .invalidMessageSize, h)

/-- `Handshake::get_shared_secret`. -/
def Handshake.get_shared_secret (h : Handshake) : Option Bytes :=
  h.shared_secret

/-! ## Key-exchange facade (`kex.rs`)

The classical X25519 primitives from x25519-dalek are external and
modelled as a record; `random_from_rng` takes the explicit seed. -/

/-- Model of the x25519-dalek operations used by `kex.rs`:
`StaticSecret::random_from_rng`, `PublicKey::from(&secret)`, and
`secret.diffie_hellman(&peer)`, all as 32-byte strings. -/
structure X25519 where
  random_from_rng : Nat → Bytes
  public_from : Bytes → Bytes
  diffie_hellman : Bytes → Bytes → Bytes

/-- Well-formedness of an X25519 model: the dalek types guarantee
32-byte outputs on the 32-byte inputs the code feeds them. -/
structure X25519.WF (X : X25519) : Prop where
  random_len : ∀ r, (X.random_from_rng r).length = 32
  public_len : ∀ s, s.length = 32 → (X.public_from s).length = 32
  dh_len : ∀ s p, s.length = 32 → p.length = 32 → (X.diffie_hellman s p).length = 32

/-- `KemMode` enum. -/
inductive KemMode where
  | PqcOnly
  | Hybrid
  | Classical
deriving DecidableEq, Repr

/-- `KeyExchange::generate_keypair`.  `PqcOnly` forwards the
provider's `(pk, sk)` tuple unchanged; `Classical` returns
`(secret, public)`; `Hybrid` returns
`(pqc_sk ∥ x25519_sk, pqc_pk ∥ x25519_pk)`. -/
def KeyExchange.generate_keypair (P : CryptoProvider) (X : X25519) (mode : KemMode)
    (rng : Nat) : Except KexError (Bytes × Bytes) :=
  match mode with
  | .PqcOnly =>
      match P.generate_static_keypair rng with
      | .error e => .error (.cryptoError e)
      | .ok r => .ok r
  | .Classical =>
      let secret := X.random_from_rng rng
      let public := X.public_from secret
      .ok (secret, public)
  | .Hybrid =>
      match P.generate_static_keypair rng with
      | .error e => .error (.cryptoError e)
      | .ok (pqc_pk, pqc_sk) =>
          let secret := X.random_from_rng (rng + 1)
          let public := X.public_from secret
          .ok (pqc_sk ++ secret, pqc_pk ++ public)

/-- `KeyExchange::encapsulate`.  In the Hybrid arm the source computes
`peer_pk.split_at(peer_pk.len() - 32)`; when `peer_pk` is shorter than
32 bytes the `usize` subtraction underflows and the call panics, which
the model makes explicit.  The `try_from` 32-byte conversion failures
map to `InvalidMode`. -/
def KeyExchange.encapsulate (P : CryptoProvider) (X : X25519) (mode : KemMode)
    (peer_pk : Bytes) (rng : Nat) : Outcome KexError (Bytes × Bytes) :=
  match mode with
  | .PqcOnly =>
      match P.encapsulate_static peer_pk rng with
      | .error e => .err (.cryptoError e)
      | .ok r => .ok r
  | .Classical =>
      if peer_pk.length = 32 then
        let secret := X.random_from_rng rng
        let public := X.public_from secret
        let shared := X.diffie_hellman secret peer_pk
        .ok (shared, public)
      else
        .err .invalidMode
  | .Hybrid =>
      if peer_pk.length < 32 then .panic
      else
        let pqc_pk := peer_pk.take (peer_pk.length - 32)
        let classical_pk := peer_pk.drop (peer_pk.length - 32)
        match P.encapsulate_static pqc_pk rng with
        | .error e => .err (.cryptoError e)
        | .ok (pqc_ss, pqc_ct) =>
            if classical_pk.length = 32 then
              let secret := X.random_from_rng (rng + 1)
              let public := X.public_from secret
              let classical_ss := X.diffie_hellman secret classical_pk
              .ok (pqc_ss ++ classical_ss, pqc_ct ++ public)
            else
              .err .invalidMode

/-- `KeyExchange::decapsulate`.  Hybrid splits the secret key and then
the ciphertext at `len - 32` (panicking on underflow as in
`encapsulate`), decapsulates the PQC part, then runs the classical
Diffie-Hellman on the trailing 32 bytes of each. -/
def KeyExchange.decapsulate (P : CryptoProvider) (X : X25519) (mode : KemMode)
    (ciphertext secret_key : Bytes) : Outcome KexError Bytes :=
  match mode with
  | .PqcOnly =>
      match P.decapsulate_static ciphertext secret_key with
      | .error e => .err (.cryptoError e)
      | .ok r => .ok r
  | .Classical =>
      if secret_key.length = 32 then
        if ciphertext.length = 32 then
          .ok (X.diffie_hellman secret_key ciphertext)
        else .err .invalidMode
      else .err .invalidMode
  | .Hybrid =>
      if secret_key.length < 32 then .panic
      else
        let pqc_sk := secret_key.take (secret_key.length - 32)
        let classical_sk := secret_key.drop (secret_key.length - 32)
        if ciphertext.length < 32 then .panic
        else
          let pqc_ct := ciphertext.take (ciphertext.length - 32)
          let classical_ct := ciphertext.drop (ciphertext.length - 32)
          match P.decapsulate_static pqc_ct pqc_sk with
          | .error e => .err (.cryptoError e)
          | .ok pqc_ss =>
              if classical_sk.length = 32 then
                if classical_ct.length = 32 then
                  .ok (pqc_ss ++ X.diffie_hellman classical_sk classical_ct)
                else .err .invalidMode
              else .err .invalidMode

/-! ## Concrete toy instances for evaluation

A small deterministic KEM with the correctness shape of the real
providers: encapsulating against public key `[1, s]` with seed `r`
yields shared secret `[3, r, 1, s]` and ciphertext `[4, r, 1, s]`;
decapsulating with the matching secret key `[2, s]` recovers the same
secret, while a mismatched key yields a 4-byte implicitly-rejected
secret starting with `9` (as an IND-CCA KEM with implicit rejection
does).  The ephemeral KEM uses tags `5`-`8` in the same pattern. -/

def toyProvider : CryptoProvider :=
  { generate_static_keypair := fun r => .ok ([1, r], [2, r])
    generate_ephemeral_keypair := fun r => .ok ([5, r], [6, r])
    encapsulate_static := fun pk r => .ok ([3, r] ++ pk, [4, r] ++ pk)
    decapsulate_static := fun ct sk =>
      match ct, sk with
      | [4, r, 1, s], [2, t] => if s = t then .ok [3, r, 1, s] else .ok [9, r, s, t]
      | _, _ => .error .kemError
    encapsulate_ephemeral := fun pk r => .ok ([7, r] ++ pk, [8, r] ++ pk)
    decapsulate_ephemeral := fun ct sk =>
      match ct, sk with
      | [8, r, 5, s], [6, t] => if s = t then .ok [7, r, 5, s] else .ok [9, r, s, t]
      | _, _ => .error .kemError }

/-- A deterministic stand-in for the x25519-dalek operations with the
right lengths. -/
def toyX : X25519 :=
  { random_from_rng := fun r => List.replicate 31 0 ++ [r % 256]
    public_from := fun s => s.map (fun b => (b + 1) % 256)
    diffie_hellman := fun s p => (s.zip p).map (fun q => (q.1 + q.2) % 256) }

/-! ## Concrete sessions and runs used by the claim checks -/

/-- The toy run of the paired handshake: initiator built with static
seed 0, responder with static seed 1 (distinct identities, as two
calls to the shared provider's RNG give); initiator ephemerals drawn
with seed 10, responder ephemerals with seed 20. -/
def handshakeRun : Option (Handshake × Handshake) :=
  match Handshake.new toyProvider 0 true, Handshake.new toyProvider 1 false with
  | .ok hI, .ok hR =>
      match hI.create_initiation toyProvider 10 with
      | (.ok msg1, hI2) =>
          match hR.process_initiation toyProvider 20 msg1 with
          | (.ok msg2, hR2) =>
              match hI2.process_response toyProvider msg2 with
              | (.ok _, hI3) => some (hI3, hR2)
              | _ => none
          | _ => none
      | _ => none
  | _, _ => none

/-- A session that has reached `ResponderFinished`. -/
def finishedR : Handshake :=
  { state := .ResponderFinished
    static_private := [2, 1]
    static_public := [1, 1]
    ephemeral_private := some [6, 20]
    shared_secret := some [9, 11, 0, 1, 7, 21, 5, 10] }

/-- A fresh responder session, as `Handshake::new(provider, false)`
returns it with the toy provider and seed 1. -/
def respondR : Handshake :=
  { state := .ResponderStart
    static_private := [2, 1]
    static_public := [1, 1]
    ephemeral_private := none
    shared_secret := none }

/-- A fresh initiator session, as `Handshake::new(provider, true)`
returns it with the toy provider and seed 0: `ephemeral_private` and
`shared_secret` are both `none`. -/
def freshI : Handshake :=
  { state := .InitiatorStart
    static_private := [2, 0]
    static_public := [1, 0]
    ephemeral_private := none
    shared_secret := none }

/-! ## Helper lemmas -/

/-- With the reference field sizes the assembled buffer is
`1 + 3 + 4 + 896 + 188 + 12 + 32 + 32 = 1168` bytes. -/
theorem serializedBuf_length_of_validRef (m : HandshakeMessage) (hm : m.ValidRef) :
    m.serializedBuf.length = 1168 := by
  obtain ⟨-, -, h3, h4, h5, h6, h7⟩ := hm
  simp [HandshakeMessage.serializedBuf, putU32le, RESERVED_SIZE, TIMESTAMP_SIZE, MAC_SIZE,
    h3, h4, h5, h6, h7]

/-- With the reference field sizes, `serialize` succeeds and returns
the (unpadded) 1168-byte buffer. -/
theorem serialize_of_validRef (m : HandshakeMessage) (hm : m.ValidRef) :
    m.serialize = .ok m.serializedBuf := by
  unfold HandshakeMessage.serialize
  rw [if_neg]
  rw [serializedBuf_length_of_validRef m hm]
  norm_num [HANDSHAKE_MESSAGE_SIZE]

/-- The all-zero reference message is valid. -/
theorem msgRef_validRef : msgRef.ValidRef := by
  refine ⟨by decide, by decide, ?_, ?_, ?_, ?_, ?_⟩ <;>
    simp only [msgRef, HandshakeMessage.new, List.length_replicate]

/-! ## Claim theorems -/

/-- Claim C2 (code bug).  For the reference field sizes
(`P = 896`, `C = 188`) the assembled frame is
`1 + 3 + 4 + 896 + 188 + 12 + 32 + 32 = 1168` bytes.  `serialize`
succeeds (1168 is not LONGER than 1232) and returns the unpadded
1168-byte buffer, so the serialized frame is never 1232 bytes — even
though the source's own `HANDSHAKE_MESSAGE_SIZE` constant and its own
`deserialize` demand exactly 1232. -/
theorem c2_serialized_frame_is_1168_not_1232 (m : HandshakeMessage) (hm : m.ValidRef) :
    (m.serialize).map List.length = .ok 1168 ∧
    (m.serialize).map List.length ≠ .ok HANDSHAKE_MESSAGE_SIZE := by
  have h : (m.serialize).map List.length = .ok 1168 := by
    rw [serialize_of_validRef m hm]
    simp [Except.map, serializedBuf_length_of_validRef m hm]
  refine ⟨h, ?_⟩
  rw [h]
  norm_num [HANDSHAKE_MESSAGE_SIZE]

/-- Witness for C2 at the concrete all-zero reference message. -/
theorem c2_witness :
    (msgRef.serialize).map List.length = .ok 1168 ∧
    (msgRef.serialize).map List.length ≠ .ok HANDSHAKE_MESSAGE_SIZE :=
  c2_serialized_frame_is_1168_not_1232 msgRef msgRef_validRef

/-- Claim C3 (code bug).  `deserialize (serialize m)` never succeeds
for a reference-sized message: `serialize` emits a 1168-byte frame and
`deserialize` rejects every input that is not exactly 1232 bytes, so
the round trip fails with `InvalidMessageSize`. -/
theorem c3_roundtrip_fails_with_invalidMessageSize (m : HandshakeMessage) (hm : m.ValidRef) :
    Except.bind m.serialize HandshakeMessage.deserialize
      = .error HandshakeError.invalidMessageSize := by
  rw [serialize_of_validRef m hm]
  show HandshakeMessage.deserialize m.serializedBuf = _
  unfold HandshakeMessage.deserialize
  rw [if_pos]
  rw [serializedBuf_length_of_validRef m hm]
  norm_num [HANDSHAKE_MESSAGE_SIZE]

/-- Witness for C3 at the concrete all-zero reference message. -/
theorem c3_witness :
    Except.bind msgRef.serialize HandshakeMessage.deserialize
      = .error HandshakeError.invalidMessageSize :=
  c3_roundtrip_fails_with_invalidMessageSize msgRef msgRef_validRef

/-- Claim C9 (confirmed).  `deserialize` fails with
`InvalidMessageSize` on every input whose length is not exactly
`HANDSHAKE_MESSAGE_SIZE = 1232` bytes. -/
theorem c9_deserialize_rejects_wrong_length (b : Bytes)
    (hb : b.length ≠ HANDSHAKE_MESSAGE_SIZE) :
    HandshakeMessage.deserialize b = .error HandshakeError.invalidMessageSize := by
  unfold HandshakeMessage.deserialize
  rw [if_pos hb]

/-- Witness for C9: a correct frame truncated to 1231 bytes is
rejected. -/
theorem c9_witness :
    HandshakeMessage.deserialize (List.replicate 1231 0)
      = .error HandshakeError.invalidMessageSize :=
  c9_deserialize_rejects_wrong_length (List.replicate 1231 0)
    (by simp only [List.length_replicate, HANDSHAKE_MESSAGE_SIZE]; norm_num)

/-- Claim C1 (code bug).  In the paired run
`I.create_initiation → R.process_initiation → I.process_response`
with a correct (toy) provider and distinct static identities, both
sessions do end `*Finished` and both final secrets have length
`len(ss_static) + len(ss_ephemeral) = 4 + 4`, but the secrets are NOT
byte-equal: `create_initiation` encapsulates against
`self.static_public` — the initiator's OWN static key — while the
responder decapsulates with its own (different) static secret key, so
the static halves (`[3, 11, 1, 0]` vs the implicitly-rejected
`[9, 11, 0, 1]`) differ.  Only the ephemeral halves agree. -/
theorem c1_paired_handshake_secrets_not_byte_equal :
    handshakeRun.map (fun q => (q.1.state, q.2.state))
      = some (HandshakeState.InitiatorFinished, HandshakeState.ResponderFinished) ∧
    handshakeRun.map (fun q => q.1.get_shared_secret)
      = some (some [3, 11, 1, 0, 7, 21, 5, 10]) ∧
    handshakeRun.map (fun q => q.2.get_shared_secret)
      = some (some [9, 11, 0, 1, 7, 21, 5, 10]) ∧
    ([3, 11, 1, 0, 7, 21, 5, 10] : Bytes) ≠ [9, 11, 0, 1, 7, 21, 5, 10] ∧
    ([3, 11, 1, 0, 7, 21, 5, 10] : Bytes).length = 4 + 4 ∧
    ([9, 11, 0, 1, 7, 21, 5, 10] : Bytes).length = 4 + 4 := by
  decide

/-- Claim C5 (corrected).  Every handshake operation invoked in a
non-matching state — in particular on a `*Finished` session — does
fail, but the error returned is the `InvalidMessageSize` variant:
`HandshakeError` has no state-mismatch variant at all, all three state
guards reuse `InvalidMessageSize`. -/
theorem c5_state_mismatch_fails_with_invalidMessageSize (P : CryptoProvider)
    (rng : Nat) (h : Handshake) (msg : HandshakeMessage) :
    (h.state ≠ .InitiatorStart →
      (h.create_initiation P rng).1 = .error HandshakeError.invalidMessageSize) ∧
    (h.state ≠ .ResponderStart →
      (h.process_initiation P rng msg).1 = .error HandshakeError.invalidMessageSize) ∧
    (h.state ≠ .InitiatorStart →
      (h.process_response P msg).1 = .err HandshakeError.invalidMessageSize) := by
  obtain ⟨st, sp, pb, ep, ss⟩ := h
  refine ⟨fun hs => ?_, fun hs => ?_, fun hs => ?_⟩ <;> cases st <;>
    first
    | exact absurd rfl hs
    | rfl

/-- Counterexample for C5 as stated: on a `ResponderFinished` session,
`process_initiation` returns precisely the `InvalidMessageSize` error
variant — the embedded `HandshakeError` enum (taken from the source)
contains no `InvalidState` variant, so no operation can fail with an
`InvalidState` error kind distinct from the message-size kind. -/
theorem c5_counterexample :
    (finishedR.process_initiation toyProvider 0 msgRef).1
      = .error HandshakeError.invalidMessageSize ∧
    (HandshakeError.invalidMessageSize ≠ HandshakeError.invalidMac ∧
     HandshakeError.invalidMessageSize ≠ HandshakeError.invalidTimestamp) := by
  decide

/-- Witness for C5 at a concrete finished session. -/
theorem c5_witness :
    (finishedR.create_initiation toyProvider 0).1
      = .error HandshakeError.invalidMessageSize :=
  (c5_state_mismatch_fails_with_invalidMessageSize toyProvider 0 finishedR msgRef).1
    (by decide)

/-- Claim C8 (corrected).  There is no poisoning: an erroring (or
panicking) handshake operation leaves the session's `state` field
unchanged, so the session afterwards behaves according to that
unchanged state rather than uniformly failing. -/
theorem c8_error_leaves_state_unchanged (P : CryptoProvider) (rng : Nat)
    (h : Handshake) (msg : HandshakeMessage) :
    (∀ e, (h.create_initiation P rng).1 = .error e →
      ((h.create_initiation P rng).2).state = h.state) ∧
    (∀ e, (h.process_initiation P rng msg).1 = .error e →
      ((h.process_initiation P rng msg).2).state = h.state) ∧
    (∀ e, (h.process_response P msg).1 = .err e →
      ((h.process_response P msg).2).state = h.state) ∧
    ((h.process_response P msg).1 = .panic →
      ((h.process_response P msg).2).state = h.state) := by
  obtain ⟨st, sp, pb, ep, ss⟩ := h
  refine ⟨fun e he => ?_, fun e he => ?_, fun e he => ?_, fun hp => ?_⟩
  · cases st <;> try rfl
    case InitiatorStart =>
      cases hgen : P.generate_ephemeral_keypair rng with
      | error e2 => simp [Handshake.create_initiation, hgen]
      | ok pr =>
          obtain ⟨pub, priv⟩ := pr
          cases henc : P.encapsulate_static pb (rng + 1) with
          | error e3 => simp [Handshake.create_initiation, hgen, henc]
          | ok pr2 =>
              obtain ⟨s1, c1⟩ := pr2
              simp [Handshake.create_initiation, hgen, henc] at he
  · cases st <;> try rfl
    case ResponderStart =>
      cases hdec : P.decapsulate_static msg.static_ciphertext sp with
      | error e2 => simp [Handshake.process_initiation, hdec]
      | ok s0 =>
          cases hgen : P.generate_ephemeral_keypair rng with
          | error e2 => simp [Handshake.process_initiation, hdec, hgen]
          | ok pr =>
              obtain ⟨pub, priv⟩ := pr
              cases henc : P.encapsulate_ephemeral msg.ephemeral_public (rng + 1) with
              | error e3 => simp [Handshake.process_initiation, hdec, hgen, henc]
              | ok pr2 =>
                  obtain ⟨s1, c1⟩ := pr2
                  simp [Handshake.process_initiation, hdec, hgen, henc] at he
  · cases st <;> try rfl
    case InitiatorStart =>
      cases ep with
      | none => simp [Handshake.process_response] at he
      | some priv =>
          cases hdec : P.decapsulate_ephemeral msg.static_ciphertext priv with
          | error e2 => simp [Handshake.process_response, hdec]
          | ok s0 =>
              cases ss with
              | none => simp [Handshake.process_response, hdec] at he
              | some prev => simp [Handshake.process_response, hdec] at he
  · cases st <;> try rfl
    case InitiatorStart =>
      cases ep with
      | none => rfl
      | some priv =>
          cases hdec : P.decapsulate_ephemeral msg.static_ciphertext priv with
          | error e2 => simp [Handshake.process_response, hdec]
          | ok s0 =>
              cases ss with
              | none => simp [Handshake.process_response, hdec]
              | some prev => simp [Handshake.process_response, hdec] at hp

/-- Counterexample for C8 as stated: `create_initiation` on a fresh
responder session returns an error (the state mismatch) and leaves the
session unchanged; the very next operation, `process_initiation` with
a well-formed initiation message, SUCCEEDS instead of returning any
error. -/
theorem c8_counterexample :
    (respondR.create_initiation toyProvider 10).1
      = .error HandshakeError.invalidMessageSize ∧
    (respondR.create_initiation toyProvider 10).2 = respondR ∧
    (respondR.process_initiation toyProvider 20
        (HandshakeMessage.new 1 0 [5, 10] [4, 11, 1, 0] (List.replicate TIMESTAMP_SIZE 0))).1
      = .ok (HandshakeMessage.new 2 1 [5, 20] [8, 21, 5, 10] (List.replicate TIMESTAMP_SIZE 0)) := by
  decide

/-- Witness for C8: after the erroring call on `respondR`, the
session's state is still `ResponderStart`. -/
theorem c8_witness :
    ((respondR.create_initiation toyProvider 10).2).state = respondR.state :=
  (c8_error_leaves_state_unchanged toyProvider 10 respondR msgRef).1
    HandshakeError.invalidMessageSize (by decide)

/-- Claim C10 (confirmed).  On a freshly constructed initiator session
the state guard of `process_response` passes (the state is
`InitiatorStart`, since `create_initiation` never changes the state
field), and the operation panics on `self.ephemeral_private.as_ref().unwrap()`
— `ephemeral_private` is still `None` — instead of returning an
error. -/
theorem c10_process_response_on_fresh_initiator_panics (P : CryptoProvider)
    (rng : Nat) (h : Handshake) (msg : HandshakeMessage)
    (hnew : Handshake.new P rng true = .ok h) :
    h.process_response P msg = (.panic, h) := by
  unfold Handshake.new at hnew
  cases hgen : P.generate_static_keypair rng with
  | error e => rw [hgen] at hnew; exact Except.noConfusion hnew
  | ok pr =>
      obtain ⟨pub, priv⟩ := pr
      rw [hgen] at hnew
      simp only [Except.ok.injEq] at hnew
      subst hnew
      rfl

/-- Witness for C10 at the concrete fresh initiator session. -/
theorem c10_witness : freshI.process_response toyProvider msgRef = (.panic, freshI) :=
  c10_process_response_on_fresh_initiator_panics toyProvider 0 freshI msgRef (by decide)

/-- The toy X25519 model is well-formed (32-byte outputs). -/
theorem toyX_wf : toyX.WF := by
  constructor
  · intro r
    simp [toyX]
  · intro s hs
    simp [toyX, hs]
  · intro s p hs hp
    simp [toyX, hs, hp]

/-- Claim C4 (code bug).  `KeyExchange::generate_keypair` does not
return its tuple in a consistent order: the `PqcOnly` arm forwards the
provider's `(pk, sk)` tuple unchanged (the provider tuple is
destructured `(public, private)` by `Handshake::new` and by the Hybrid
arm itself), while the `Classical` and `Hybrid` arms return
`(sk, pk)`.  Under the claim's uniform `(sk, pk)` reading, the
`PqcOnly` round trip fails: encapsulating against the second component
targets the SECRET key, and decapsulating with the first component
keys the KEM with the PUBLIC key, which the KEM rejects (conjuncts
3-4); with the components matched the other way the round trip
succeeds (conjuncts 5-6).  Conjunct 7 shows the Hybrid arm placing the
static SECRET `[2, 0]` first, the opposite order. -/
theorem c4_pqconly_tuple_order_breaks_roundtrip :
    KeyExchange.generate_keypair toyProvider toyX .PqcOnly 0 = .ok ([1, 0], [2, 0]) ∧
    toyProvider.generate_static_keypair 0 = .ok ([1, 0], [2, 0]) ∧
    KeyExchange.encapsulate toyProvider toyX .PqcOnly [2, 0] 5
      = .ok ([3, 5, 2, 0], [4, 5, 2, 0]) ∧
    KeyExchange.decapsulate toyProvider toyX .PqcOnly [4, 5, 2, 0] [1, 0]
      = .err (.cryptoError .kemError) ∧
    KeyExchange.encapsulate toyProvider toyX .PqcOnly [1, 0] 5
      = .ok ([3, 5, 1, 0], [4, 5, 1, 0]) ∧
    KeyExchange.decapsulate toyProvider toyX .PqcOnly [4, 5, 1, 0] [2, 0]
      = .ok [3, 5, 1, 0] ∧
    KeyExchange.generate_keypair toyProvider toyX .Hybrid 0
      = .ok ([2, 0] ++ toyX.random_from_rng 1,
             [1, 0] ++ toyX.public_from (toyX.random_from_rng 1)) := by
  decide

/-- Claim C6 (confirmed).  In Hybrid mode the keypair, ciphertext and
shared secret are the PQC value followed by the 32-byte X25519 value:
`pk = pqc_pk ∥ x_pub`, `ct = pqc_ct ∥ x_eph_pub`,
`ss = pqc_ss ∥ x_ss`, and the three length equations
`len = len_pqc + 32` hold. -/
theorem c6_hybrid_layout (P : CryptoProvider) (X : X25519) (hX : X.WF)
    (r r2 : Nat) (pqc_pk pqc_sk sk pk ss_pqc ct_pqc ss ct : Bytes)
    (hgen : P.generate_static_keypair r = .ok (pqc_pk, pqc_sk))
    (hkp : KeyExchange.generate_keypair P X .Hybrid r = .ok (sk, pk))
    (hencP : P.encapsulate_static pqc_pk r2 = .ok (ss_pqc, ct_pqc))
    (henc : KeyExchange.encapsulate P X .Hybrid pk r2 = .ok (ss, ct)) :
    pk = pqc_pk ++ X.public_from (X.random_from_rng (r + 1)) ∧
    sk = pqc_sk ++ X.random_from_rng (r + 1) ∧
    ct = ct_pqc ++ X.public_from (X.random_from_rng (r2 + 1)) ∧
    ss = ss_pqc ++ X.diffie_hellman (X.random_from_rng (r2 + 1))
        (X.public_from (X.random_from_rng (r + 1))) ∧
    pk.length = pqc_pk.length + 32 ∧
    ct.length = ct_pqc.length + 32 ∧
    ss.length = ss_pqc.length + 32 := by
  have hpub : (X.public_from (X.random_from_rng (r + 1))).length = 32 :=
    hX.public_len _ (hX.random_len _)
  have hpub2 : (X.public_from (X.random_from_rng (r2 + 1))).length = 32 :=
    hX.public_len _ (hX.random_len _)
  have hdh : (X.diffie_hellman (X.random_from_rng (r2 + 1))
      (X.public_from (X.random_from_rng (r + 1)))).length = 32 :=
    hX.dh_len _ _ (hX.random_len _) hpub
  have hkp2 : KeyExchange.generate_keypair P X .Hybrid r
      = .ok (pqc_sk ++ X.random_from_rng (r + 1),
             pqc_pk ++ X.public_from (X.random_from_rng (r + 1))) := by
    simp [KeyExchange.generate_keypair, hgen]
  rw [hkp2] at hkp
  simp only [Except.ok.injEq, Prod.mk.injEq] at hkp
  obtain ⟨hsk, hpk⟩ := hkp
  subst hsk
  subst hpk
  have h1 : ¬ (pqc_pk ++ X.public_from (X.random_from_rng (r + 1))).length < 32 := by
    simp [List.length_append, hpub]
  have htake : (pqc_pk ++ X.public_from (X.random_from_rng (r + 1))).take
      ((pqc_pk ++ X.public_from (X.random_from_rng (r + 1))).length - 32) = pqc_pk := by
    simp [List.length_append, hpub]
  have hdrop : (pqc_pk ++ X.public_from (X.random_from_rng (r + 1))).drop
      ((pqc_pk ++ X.public_from (X.random_from_rng (r + 1))).length - 32)
      = X.public_from (X.random_from_rng (r + 1)) := by
    simp [List.length_append, hpub]
  have hcomp : KeyExchange.encapsulate P X .Hybrid
      (pqc_pk ++ X.public_from (X.random_from_rng (r + 1))) r2
      = .ok (ss_pqc ++ X.diffie_hellman (X.random_from_rng (r2 + 1))
                (X.public_from (X.random_from_rng (r + 1))),
             ct_pqc ++ X.public_from (X.random_from_rng (r2 + 1))) := by
    simp [KeyExchange.encapsulate, h1, htake, hdrop, hencP, hpub]
  rw [hcomp] at henc
  simp only [Outcome.ok.injEq, Prod.mk.injEq] at henc
  obtain ⟨hss, hct⟩ := henc
  subst hss
  subst hct
  refine ⟨rfl, rfl, rfl, rfl, ?_, ?_, ?_⟩ <;>
    simp [List.length_append, hpub, hpub2, hdh]

/-- Witness for C6 at the toy provider and seeds 0 and 7. -/
theorem c6_witness :
    ([1, 0] ++ List.replicate 31 1 ++ [2] : Bytes)
      = [1, 0] ++ toyX.public_from (toyX.random_from_rng 1) ∧
    ([2, 0] ++ List.replicate 31 0 ++ [1] : Bytes)
      = [2, 0] ++ toyX.random_from_rng 1 ∧
    ([4, 7, 1, 0] ++ List.replicate 31 1 ++ [9] : Bytes)
      = [4, 7, 1, 0] ++ toyX.public_from (toyX.random_from_rng 8) ∧
    ([3, 7, 1, 0] ++ List.replicate 31 1 ++ [10] : Bytes)
      = [3, 7, 1, 0] ++ toyX.diffie_hellman (toyX.random_from_rng 8)
          (toyX.public_from (toyX.random_from_rng 1)) ∧
    ([1, 0] ++ List.replicate 31 1 ++ [2] : Bytes).length = ([1, 0] : Bytes).length + 32 ∧
    ([4, 7, 1, 0] ++ List.replicate 31 1 ++ [9] : Bytes).length
      = ([4, 7, 1, 0] : Bytes).length + 32 ∧
    ([3, 7, 1, 0] ++ List.replicate 31 1 ++ [10] : Bytes).length
      = ([3, 7, 1, 0] : Bytes).length + 32 :=
  c6_hybrid_layout toyProvider toyX toyX_wf 0 7 [1, 0] [2, 0]
    ([2, 0] ++ List.replicate 31 0 ++ [1]) ([1, 0] ++ List.replicate 31 1 ++ [2])
    [3, 7, 1, 0] [4, 7, 1, 0]
    ([3, 7, 1, 0] ++ List.replicate 31 1 ++ [10]) ([4, 7, 1, 0] ++ List.replicate 31 1 ++ [9])
    (by decide) (by decide) (by decide) (by decide)

/-- Claim C7 (code bug).  In Hybrid mode, `encapsulate` on a public
key shorter than 32 bytes and `decapsulate` on a ciphertext or secret
key shorter than 32 bytes PANIC — `len - 32` underflows `usize` and
`split_at` is called out of range — instead of returning
`InvalidMode`. -/
theorem c7_hybrid_short_slices_panic :
    KeyExchange.encapsulate toyProvider toyX .Hybrid [] 0 = .panic ∧
    KeyExchange.encapsulate toyProvider toyX .Hybrid (List.replicate 31 0) 0 = .panic ∧
    KeyExchange.decapsulate toyProvider toyX .Hybrid [] (List.replicate 40 0) = .panic ∧
    KeyExchange.decapsulate toyProvider toyX .Hybrid (List.replicate 40 0) [] = .panic ∧
    KeyExchange.decapsulate toyProvider toyX .Hybrid (List.replicate 31 0)
      (List.replicate 40 0) = .panic := by
  decide

end PQCVPN
